import Mathlib

/-!
Verification development for four fragments of a rendering engine:
a render-stage bitmask registry, a render-window (render target) resize
policy, a render-pipeline occlusion-query accessor, and the script/native
value-marshalling layer (jsb_conversions.cpp).

Modelling conventions:
* Scripting-runtime values (se::Value) are a closed variant `SeVal`;
  numbers are rationals (IEEE doubles are not modelled; every conversion
  below only moves numbers around, it never does arithmetic on them, so
  the claims settled here do not depend on rounding).
* C++ out-parameters become explicit state passing: a conversion
  `bool f(const se::Value&, T* ret)` becomes `f : SeVal → T → Bool × T`,
  where the second component is the value of `*ret` after the call.
* Debug-only `assert`/`CCASSERT` are compiled out in release builds and
  are treated as documentation of preconditions, not as behaviour.
* 32-bit JavaScript integer operations (`<<`, `|`, ToInt32) are modelled
  on `Int` with explicit wrapping modulo 2^32.
-/

/-- A scripting-runtime value.  Arrays are objects in the runtime
(`isObject()` answers true for them); here they get their own
constructor and `isObject` covers both. -/
inductive SeVal where
  | undefined : SeVal
  | nullVal : SeVal
  | boolean (b : Bool) : SeVal
  | number (q : ℚ) : SeVal
  | str (s : String) : SeVal
  | object (props : List (String × SeVal)) : SeVal
  | array (elems : List SeVal) : SeVal

/-- `se::Value::isObject()`: true for plain objects and arrays. -/
def SeVal.isObject : SeVal → Bool
  | .object _ => true
  | .array _ => true
  | _ => false

/-- `se::Object::isArray()`. -/
def SeVal.isArrayObj : SeVal → Bool
  | .array _ => true
  | _ => false

/-- `se::Value::isString()`. -/
def SeVal.isString : SeVal → Bool
  | .str _ => true
  | _ => false

/-- `se::Value::isNumber()`. -/
def SeVal.isNumber : SeVal → Bool
  | .number _ => true
  | _ => false

/-- `se::Value::isBoolean()`. -/
def SeVal.isBoolean : SeVal → Bool
  | .boolean _ => true
  | _ => false

/-- `se::Value::isNullOrUndefined()`. -/
def SeVal.isNullOrUndefined : SeVal → Bool
  | .undefined => true
  | .nullVal => true
  | _ => false

/-- Association-list lookup by key; models property access on a
scripting object (own keys are unique in the runtime, so this is the
object's property table). -/
def lookupByName {α : Type} (l : List (String × α)) (name : String) : Option α :=
  (l.find? (fun p => p.1 == name)).map (fun p => p.2)

/-- The own property list of a value, as seen through
`se::Value::toObject()` plus `getAllKeys`.  A plain object yields its
properties; an array's own enumerable keys are its decimal indices.
Calling `toObject()` on anything else is undefined behaviour in the
source (a debug assert guards it); the model totalises it as an empty
property table — no claim below exercises that case. -/
def SeVal.toObjectProps : SeVal → List (String × SeVal)
  | .object props => props
  | .array elems => elems.enum.map (fun p => (toString p.1, p.2))
  | _ => []

/-- `se::Object::getProperty(name, &out)`; `none` models the
read-fails-or-property-absent outcome. -/
def getProp (props : List (String × SeVal)) (name : String) : Option SeVal :=
  lookupByName props name

/-- Reads a property and checks `isNumber()`, the ubiquitous
`getProperty(..) && v.isNumber()` pattern; yields the numeric payload. -/
def readNumberProp (props : List (String × SeVal)) (name : String) : Option ℚ :=
  match getProp props name with
  | some (.number q) => some q
  | _ => none

/-- Truncation toward zero of a rational, as C double→integer
conversion and JavaScript ToInt32 truncate. -/
def ratTrunc (q : ℚ) : Int :=
  if 0 ≤ q then ⌊q⌋ else -⌊-q⌋

/-- Wraps an integer into the signed 32-bit range, two's complement. -/
def wrap32 (n : Int) : Int :=
  (n + 2 ^ 31) % 2 ^ 32 - 2 ^ 31

/-- `se::Value::toInt32()` (ECMA ToInt32: truncate, wrap mod 2^32). -/
def seValToInt32 (q : ℚ) : Int :=
  wrap32 (ratTrunc q)

/-- `se::Value::toUint16()` (truncate, wrap mod 2^16). -/
def seValToUint16 (q : ℚ) : Nat :=
  (ratTrunc q % 2 ^ 16).toNat

/-- `se::Value::toUint8()` (truncate, wrap mod 2^8). -/
def seValToUint8 (q : ℚ) : Nat :=
  (ratTrunc q % 2 ^ 8).toNat

/-- `cocos2d::Vec2` (only the two float fields matter here). -/
structure Vec2 where
  x : ℚ
  y : ℚ
deriving DecidableEq

/-- `cocos2d::Vec2::ZERO`. -/
def Vec2.ZERO : Vec2 := ⟨0, 0⟩

/-- `seval_to_Vec2` (jsb_conversions.cpp).  The source asserts
`v.isObject()`; the body reads `x` then `y`, each via
`JSB_PRECONDITION3(ok && v.isNumber(), false, *pt = Vec2::ZERO)`,
then stores both floats and returns true.  The function is given the
object's property table directly together with the prior value of the
out-parameter `*pt`. -/
def seval_to_Vec2 (props : List (String × SeVal)) (pt : Vec2) : Bool × Vec2 :=
  match readNumberProp props "x" with
  | none => (false, Vec2.ZERO)
  | some x =>
    match readNumberProp props "y" with
    | none => (false, Vec2.ZERO)
    | some y =>
      let _ := pt
      (true, ⟨x, y⟩)

/-- The render-stage registry's module-level state: the monotonically
increasing bit-offset counter `_stageOffset` and the object
`_name2stageID` (an insertion-ordered table with unique keys). -/
structure StageRegistry where
  stageOffset : Nat
  name2stageID : List (String × Int)
deriving DecidableEq

/-- The registry's initial state (`_stageOffset = 0`, empty object). -/
def initRegistry : StageRegistry := ⟨0, []⟩

/-- JavaScript `1 << k`: the shift count is taken mod 32 and the result
is a signed 32-bit integer. -/
def jsShl1 (k : Nat) : Int :=
  wrap32 (2 ^ (k % 32))

/-- JavaScript `a | b` on values already in signed 32-bit range
(bitwise OR of the two's complement representations). -/
def jsOr32 (a b : Int) : Int :=
  wrap32 (Int.lor (a % 2 ^ 32) (b % 2 ^ 32))

/-- `addStage(name)`: no-op if the name is registered, otherwise
records `1 << _stageOffset` under the name and bumps the offset. -/
def StageRegistry.addStage (r : StageRegistry) (name : String) : StageRegistry :=
  match lookupByName r.name2stageID name with
  | some _ => r
  | none =>
    { stageOffset := r.stageOffset + 1
      name2stageID := r.name2stageID ++ [(name, jsShl1 r.stageOffset)] }

/-- `stageID(name)`: the registered bitmask, or `-1` if unknown. -/
def StageRegistry.stageID (r : StageRegistry) (name : String) : Int :=
  match lookupByName r.name2stageID name with
  | some id => id
  | none => -1

/-- `stageIDs(nameList)`: OR of the bitmasks of the registered names,
unknown names skipped, starting from 0. -/
def StageRegistry.stageIDs (r : StageRegistry) (nameList : List String) : Int :=
  nameList.foldl
    (fun key name =>
      match lookupByName r.name2stageID name with
      | some id => jsOr32 key id
      | none => key)
    0

/-- Runs a sequence of `addStage` calls against a starting state. -/
def runAddStages (names : List String) (r : StageRegistry) : StageRegistry :=
  names.foldl StageRegistry.addStage r

/-- `cocos2d::TTFConfig`: external to the excerpt; the stub conversion
never touches it, so only a placeholder field set is modelled. -/
structure TTFConfig where
  fontFilePath : String
  fontSize : Int
deriving DecidableEq

/-- Box2D `b2Vec2` (third-party 2D-physics vector). -/
structure b2Vec2 where
  x : ℚ
  y : ℚ
deriving DecidableEq

/-- Box2D `b2AABB` (third-party 2D-physics bounding box). -/
structure b2AABB where
  lowerBound : b2Vec2
  upperBound : b2Vec2
deriving DecidableEq

/-- `seval_to_TTFConfig` (jsb_conversions.cpp): the body is
`assert(false); return true;` — the debug assert vanishes in release
builds, the out-parameter is never written, and the function returns
true. -/
def seval_to_TTFConfig (v : SeVal) (ret : TTFConfig) : Bool × TTFConfig :=
  let _ := v
  (true, ret)

/-- `seval_to_b2Vec2` (jsb_conversions.cpp): `assert(false); return
true;`, out-parameter untouched. -/
def seval_to_b2Vec2 (v : SeVal) (ret : b2Vec2) : Bool × b2Vec2 :=
  let _ := v
  (true, ret)

/-- `seval_to_b2AABB` (jsb_conversions.cpp): `assert(false); return
true;`, out-parameter untouched. -/
def seval_to_b2AABB (v : SeVal) (ret : b2AABB) : Bool × b2AABB :=
  let _ := v
  (true, ret)

/-- `cocos2d::Color3B` (three 8-bit channels, modelled as naturals
below 256 by construction of every write). -/
structure Color3B where
  r : Nat
  g : Nat
  b : Nat
deriving DecidableEq

/-- `cocos2d::Color3B::WHITE` (constant defined outside the excerpt;
its standard value is used, and no claim depends on the numerals). -/
def Color3B.WHITE : Color3B := ⟨255, 255, 255⟩

/-- `cocos2d::Color3B::BLACK`. -/
def Color3B.BLACK : Color3B := ⟨0, 0, 0⟩

/-- `cocos2d::Color3B::BLUE`. -/
def Color3B.BLUE : Color3B := ⟨0, 0, 255⟩

/-- `seval_to_Color3B` (jsb_conversions.cpp): reads `r`, `g`, `b`, each
required present and numeric (fallback `*color = BLACK` and failure
otherwise), then stores `(GLubyte)v.toUint16()` per channel — a
truncation mod 2^16 followed by the byte cast, i.e. mod 2^8 overall. -/
def seval_to_Color3B (v : SeVal) (color : Color3B) : Bool × Color3B :=
  let props := v.toObjectProps
  match readNumberProp props "r", readNumberProp props "g", readNumberProp props "b" with
  | some r, some g, some b =>
    let _ := color
    (true, ⟨seValToUint16 r % 2 ^ 8, seValToUint16 g % 2 ^ 8, seValToUint16 b % 2 ^ 8⟩)
  | _, _, _ => (false, Color3B.BLACK)

/-- `cocos2d::Size` (two float fields). -/
structure CCSize where
  width : ℚ
  height : ℚ
deriving DecidableEq

/-- `cocos2d::TextHAlignment` values live outside the excerpt; the
field is kept as the raw integer the source casts from.  LEFT is the
default the conversion uses. -/
def TextHAlignmentLEFT : Int := 0

/-- `cocos2d::TextVAlignment::TOP`, the default vertical alignment. -/
def TextVAlignmentTOP : Int := 0

/-- `cocos2d::FontShadow`. -/
structure FontShadow where
  shadowEnabled : Bool
  shadowOffset : CCSize
  shadowBlur : ℚ
  shadowOpacity : ℚ
deriving DecidableEq

/-- `cocos2d::FontStroke`. -/
structure FontStroke where
  strokeEnabled : Bool
  strokeColor : Color3B
  strokeSize : ℚ
  strokeAlpha : Nat
deriving DecidableEq

/-- `cocos2d::FontDefinition` (the fields the conversion touches). -/
structure FontDefinition where
  fontName : String
  fontSize : Int
  alignment : Int
  vertAlignment : Int
  fontFillColor : Color3B
  dimensions : CCSize
  shadow : FontShadow
  stroke : FontStroke
deriving DecidableEq

/-- `seval_to_FontDefinition` (jsb_conversions.cpp).  The source
asserts `v.isObject()`.  Shadow/stroke enables and the white fill color
are set before any field is read; each field then follows the
present-and-right-kind-or-default discipline written in the source.
The result of the nested `seval_to_Color3B` calls is the color
out-parameter's final value and the success flag is discarded, exactly
as in the source. -/
def seval_to_FontDefinition (v : SeVal) (ret0 : FontDefinition) : Bool × FontDefinition :=
  let props := v.toObjectProps
  let ret := { ret0 with
    shadow := { ret0.shadow with shadowEnabled := false }
    stroke := { ret0.stroke with strokeEnabled := false }
    fontFillColor := Color3B.WHITE }
  let ret :=
    match getProp props "fontName" with
    | some (.str s) =>
      if s.isEmpty then { ret with fontName := "Arial" }
      else { ret with fontName := s }
    | _ => { ret with fontName := "Arial" }
  let ret :=
    match readNumberProp props "fontSize" with
    | some q => { ret with fontSize := seValToInt32 q }
    | none => { ret with fontSize := 32 }
  let ret :=
    match readNumberProp props "textAlign" with
    | some q => { ret with alignment := seValToInt32 q }
    | none => { ret with alignment := TextHAlignmentLEFT }
  let ret :=
    match readNumberProp props "verticalAlign" with
    | some q => { ret with vertAlignment := seValToInt32 q }
    | none => { ret with vertAlignment := TextVAlignmentTOP }
  let ret :=
    match getProp props "fillStyle" with
    | some val =>
      if val.isObject then
        { ret with fontFillColor := (seval_to_Color3B val ret.fontFillColor).2 }
      else ret
    | none => ret
  let ret :=
    match readNumberProp props "boundingWidth", readNumberProp props "boundingHeight" with
    | some w, some h => { ret with dimensions := ⟨w, h⟩ }
    | _, _ => ret
  let ret :=
    match getProp props "shadowEnabled" with
    | some (.boolean b) =>
      let ret := { ret with shadow := { ret.shadow with shadowEnabled := b } }
      if b then
        let sh : FontShadow :=
          { shadowEnabled := true, shadowOffset := ⟨5, 5⟩, shadowBlur := 1, shadowOpacity := 1 }
        let sh :=
          match readNumberProp props "shadowOffsetX", readNumberProp props "shadowOffsetY" with
          | some x, some y => { sh with shadowOffset := ⟨x, y⟩ }
          | _, _ => sh
        let sh :=
          match readNumberProp props "shadowBlur" with
          | some q => { sh with shadowBlur := q }
          | none => sh
        let sh :=
          match readNumberProp props "shadowOpacity" with
          | some q => { sh with shadowOpacity := q }
          | none => sh
        { ret with shadow := sh }
      else ret
    | _ => ret
  let ret :=
    match getProp props "strokeEnabled" with
    | some (.boolean b) =>
      let ret := { ret with stroke := { ret.stroke with strokeEnabled := b } }
      if b then
        let st : FontStroke :=
          { strokeEnabled := true, strokeColor := Color3B.BLUE
            strokeSize := 1, strokeAlpha := ret.stroke.strokeAlpha }
        let st :=
          match getProp props "strokeStyle" with
          | some val =>
            if val.isObject then { st with strokeColor := (seval_to_Color3B val st.strokeColor).2 }
            else st
          | none => st
        let st :=
          match readNumberProp props "lineWidth" with
          | some q => { st with strokeSize := q }
          | none => st
        let st :=
          match readNumberProp props "strokeAlpha" with
          | some q => { st with strokeAlpha := seValToUint8 q }
          | none => st
        { ret with stroke := st }
      else ret
    | _ => ret
  (true, ret)

/-- `cocos2d::Mat4`: the 16-float column-major array `m`, kept in
positional order.  Every value the code constructs has length 16. -/
structure Mat4 where
  m : List ℚ
deriving DecidableEq

/-- `cocos2d::Mat4::IDENTITY`. -/
def Mat4.IDENTITY : Mat4 :=
  ⟨[1, 0, 0, 0, 0, 1, 0, 0, 0, 0, 1, 0, 0, 0, 0, 1]⟩

/-- The element loop of `seval_to_Mat4`: each element must be numeric
(`mat->m[i] = tmp.toFloat()`), any other kind aborts with the identity
fallback.  Since the success path overwrites all positions, the result
is just the list of payloads. -/
def mat4ReadElems : List SeVal → Option (List ℚ)
  | [] => some []
  | .number q :: rest => (mat4ReadElems rest).map (fun l => q :: l)
  | _ => none

/-- `seval_to_Mat4` (jsb_conversions.cpp): requires an array object
(fallback identity), requires length exactly 16 (explicit diagnostic,
fallback identity), then reads the 16 numeric elements in order;
a non-numeric element also falls back to identity. -/
def seval_to_Mat4 (v : SeVal) (mat : Mat4) : Bool × Mat4 :=
  match v with
  | .array elems =>
    if elems.length ≠ 16 then (false, Mat4.IDENTITY)
    else
      match mat4ReadElems elems with
      | some qs =>
        let _ := mat
        (true, ⟨qs⟩)
      | none => (false, Mat4.IDENTITY)
  | _ => (false, Mat4.IDENTITY)

/-- `Mat4_to_seval` (jsb_conversions.cpp): builds a 16-element array
object whose element `i` is the number `v.m[i]`, stores it in the
out-value and returns true.  The prior out-value is never read. -/
def Mat4_to_seval (v : Mat4) : Bool × SeVal :=
  (true, .array (v.m.map SeVal.number))

/-- `cocos2d::Value`, the generic tagged value ("ccvalue").  A
default-constructed `cocos2d::Value` and `Value::Null` are `nullV`. -/
inductive CCValue where
  | nullV : CCValue
  | boolean (b : Bool) : CCValue
  | double (d : ℚ) : CCValue
  | str (s : String) : CCValue
  | vector (xs : List CCValue) : CCValue
  | map (m : List (String × CCValue)) : CCValue
  | intKeyMap (m : List (Int × CCValue)) : CCValue

/-- `std::unordered_map::emplace`: inserts only when the key is absent;
the model keeps insertion order. -/
def emplace {α β : Type} [BEq α] (m : List (α × β)) (k : α) (v : β) : List (α × β) :=
  if m.any (fun p => p.1 == k) then m else m ++ [(k, v)]

mutual

/-- `seval_to_ccvalue` (jsb_conversions.cpp).  Object inputs branch on
`isArray` into the map/vector conversion against a fresh local
container (`ValueMap dictVal` / `ValueVector arrVal`), with fallback
`*ret = Value::Null` on failure; string/number/boolean inputs store the
payload; any other kind only trips a debug `CCASSERT`, leaving `ok`
true and `*ret` untouched. -/
def seval_to_ccvalue (v : SeVal) (ret : CCValue) : Bool × CCValue :=
  match v with
  | .object props =>
    match ccvalueMapLoop props [] .nullV with
    | (true, dictVal) => (true, .map dictVal)
    | (false, _) => (false, .nullV)
  | .array elems =>
    match ccvalueVectorLoop elems [] .nullV with
    | (true, arrVal) => (true, .vector arrVal)
    | (false, _) => (false, .nullV)
  | .str s => (true, .str s)
  | .number q => (true, .double q)
  | .boolean b => (true, .boolean b)
  | .undefined => (true, ret)
  | .nullVal => (true, ret)

/-- The key loop of `seval_to_ccvaluemap`: iterates the own keys in
order; each property read succeeds for an enumerated key; a failing
element conversion clears the destination map and aborts.  The local
`cocos2d::Value ccvalue` is declared outside the loop, so its value
carries over between iterations (`ccv`). -/
def ccvalueMapLoop (props : List (String × SeVal)) (dict : List (String × CCValue))
    (ccv : CCValue) : Bool × List (String × CCValue) :=
  match props with
  | [] => (true, dict)
  | (key, value) :: rest =>
    match seval_to_ccvalue value ccv with
    | (true, ccv2) => ccvalueMapLoop rest (emplace dict key ccv2) ccv2
    | (false, _) => (false, [])

/-- The element loop of `seval_to_ccvaluevector`: converts each array
element, pushing onto the destination vector; a failing element clears
the vector and aborts.  The loop-carried local value is `ccv` as in the
map loop. -/
def ccvalueVectorLoop (elems : List SeVal) (acc : List CCValue)
    (ccv : CCValue) : Bool × List CCValue :=
  match elems with
  | [] => (true, acc)
  | e :: rest =>
    match seval_to_ccvalue e ccv with
    | (true, ccv2) => ccvalueVectorLoop rest (acc ++ [ccv2]) ccv2
    | (false, _) => (false, [])

end

/-- `seval_to_ccvaluemap` (jsb_conversions.cpp): null/undefined input
clears the destination and succeeds; otherwise the input must be an
object (debug assert) and the key loop runs against the existing
destination contents (the source never clears `*ret` on entry). -/
def seval_to_ccvaluemap (v : SeVal) (ret : List (String × CCValue)) :
    Bool × List (String × CCValue) :=
  if v.isNullOrUndefined then (true, [])
  else ccvalueMapLoop v.toObjectProps ret .nullV

/-- `isNumberString` (jsb_conversions.cpp): true iff every character is
a decimal digit — vacuously true for the empty string. -/
def isNumberString (s : String) : Bool :=
  s.toList.all (fun c => c.isDigit)

/-- C `atoi` restricted to the all-decimal-digit strings that reach it
in `seval_to_ccvaluemapintkey`; `atoi("")` is 0. -/
def atoiDigits (s : String) : Int :=
  s.toList.foldl (fun n c => n * 10 + (c.toNat - 48)) 0

/-- The key loop of `seval_to_ccvaluemapintkey`: keys failing
`isNumberString` are skipped with a warning log; the rest are parsed by
`atoi` and the converted value is emplaced under the integer key; a
failing value conversion clears the destination and aborts.  `ccv` is
the loop-carried local `cocos2d::Value`. -/
def ccvalueMapIntKeyLoop (props : List (String × SeVal)) (dict : List (Int × CCValue))
    (ccv : CCValue) : Bool × List (Int × CCValue) :=
  match props with
  | [] => (true, dict)
  | (key, value) :: rest =>
    if ¬ isNumberString key then ccvalueMapIntKeyLoop rest dict ccv
    else
      match seval_to_ccvalue value ccv with
      | (true, ccv2) => ccvalueMapIntKeyLoop rest (emplace dict (atoiDigits key) ccv2) ccv2
      | (false, _) => (false, [])

/-- `seval_to_ccvaluemapintkey` (jsb_conversions.cpp): null/undefined
input clears the destination and succeeds; otherwise the integer-key
loop runs against the existing destination contents. -/
def seval_to_ccvaluemapintkey (v : SeVal) (ret : List (Int × CCValue)) :
    Bool × List (Int × CCValue) :=
  if v.isNullOrUndefined then (true, [])
  else ccvalueMapIntKeyLoop v.toObjectProps ret .nullV

/-- A GFX texture as observed by the render window: its current
allocation size.  Dimensions are kept as rationals because they arrive
as JavaScript numbers. -/
structure GFXTexture where
  width : ℚ
  height : ℚ
deriving DecidableEq

/-- `GFXTexture.resize(width, height)`: reallocates storage at the new
size. -/
def GFXTexture.resize (t : GFXTexture) (width height : ℚ) : GFXTexture :=
  let _ := t
  ⟨width, height⟩

/-- An opaque render-pass reference (cached elsewhere, non-owning). -/
structure GFXRenderPass where
  id : Nat
deriving DecidableEq

/-- A framebuffer as the attachment binding it was (re)initialized
with: `GFXFramebufferInfo(renderPass, colorTextures, depthStencil)`. -/
structure GFXFramebuffer where
  renderPass : Option GFXRenderPass
  colorTextures : List (Option GFXTexture)
  depthStencilTexture : Option GFXTexture
deriving DecidableEq

/-- The `RenderWindow` fields `resize` touches: logical size, native
(high-water-mark) size, the render pass, the owned color texture slots
(`none` = swapchain-backed slot), the optional depth-stencil texture,
and the pooled framebuffer record (`none` = null framebuffer). -/
structure RenderWindow where
  width : ℚ
  height : ℚ
  nativeWidth : ℚ
  nativeHeight : ℚ
  renderPass : Option GFXRenderPass
  colorTextures : List (Option GFXTexture)
  depthStencilTexture : Option GFXTexture
  framebuffer : Option GFXFramebuffer
deriving DecidableEq

/-- `RenderWindow.resize(width, height)` (render-window fragment):
always stores the logical size; when the new width or height exceeds
the native size, raises the native size to the new values, resizes the
depth-stencil texture and every present color texture in place
(setting `needRebuild` whenever at least one texture exists), and — if
`needRebuild` and the pooled framebuffer is present — destroys and
reinitializes the framebuffer against the same render pass and the
resized texture list. -/
def RenderWindow.resize (win : RenderWindow) (width height : ℚ) : RenderWindow :=
  let win := { win with width := width, height := height }
  if width > win.nativeWidth ∨ height > win.nativeHeight then
    let win := { win with nativeWidth := width, nativeHeight := height }
    let needRebuildDepth := win.depthStencilTexture.isSome
    let depthStencilTexture := win.depthStencilTexture.map (fun t => t.resize width height)
    let needRebuildColor := win.colorTextures.any (fun c => c.isSome)
    let colorTextures := win.colorTextures.map (fun c => c.map (fun t => t.resize width height))
    let win := { win with
      depthStencilTexture := depthStencilTexture
      colorTextures := colorTextures }
    let needRebuild := needRebuildDepth || needRebuildColor
    match win.framebuffer, needRebuild with
    | some _, true =>
      { win with framebuffer := some ⟨win.renderPass, colorTextures, depthStencilTexture⟩ }
    | _, _ => win
  else win

/-- `gfx::DeviceCaps`: the occlusion-query capability flag. -/
structure GFXDeviceCapabilities where
  supportQuery : Bool
deriving DecidableEq

/-- `gfx::Device`, reduced to what `isOcclusionQueryEnabled` reads. -/
structure GFXDevice where
  capabilities : GFXDeviceCapabilities
deriving DecidableEq

/-- `cc::pipeline::RenderPipeline`, reduced to the occlusion-query
enable flag and the bound device. -/
structure RenderPipeline where
  occlusionQueryEnabled : Bool
  device : GFXDevice
deriving DecidableEq

/-- `RenderPipeline::isOcclusionQueryEnabled()` (pipeline header):
`_occlusionQueryEnabled && _device->getCapabilities().supportQuery`. -/
def RenderPipeline.isOcclusionQueryEnabled (p : RenderPipeline) : Bool :=
  p.occlusionQueryEnabled && p.device.capabilities.supportQuery

/-- The registry invariant maintained by `addStage`: the offset counter
equals the table length, the entry at position `i` carries the bitmask
`1 << i`, and the registered names are pairwise distinct. -/
def RegGood (r : StageRegistry) : Prop :=
  r.stageOffset = r.name2stageID.length
  ∧ (∀ i, ∀ h : i < r.name2stageID.length, (r.name2stageID[i]).2 = jsShl1 i)
  ∧ (r.name2stageID.map Prod.fst).Nodup

lemma regGood_init : RegGood initRegistry := by
  refine ⟨rfl, ?_, ?_⟩
  · intro i h
    simp [initRegistry] at h
  · simp [initRegistry]

lemma lookupByName_eq_none_iff {α : Type} (l : List (String × α)) (name : String) :
    lookupByName l name = none ↔ ∀ p ∈ l, p.1 ≠ name := by
  simp [lookupByName, List.find?_eq_none]

lemma regGood_addStage (r : StageRegistry) (hr : RegGood r) (name : String) :
    RegGood (r.addStage name) := by
  obtain ⟨hoff, hval, hnd⟩ := hr
  cases hl : lookupByName r.name2stageID name with
  | some v =>
    simpa [StageRegistry.addStage, hl] using ⟨hoff, hval, hnd⟩
  | none =>
    simp only [StageRegistry.addStage, hl]
    refine ⟨by simp [hoff], ?_, ?_⟩
    · intro i h
      simp only [List.length_append, List.length_singleton] at h
      rcases Nat.lt_or_ge i r.name2stageID.length with hi | hi
      · rw [List.getElem_append_left hi]
        exact hval i hi
      · have hieq : i = r.name2stageID.length := by omega
        subst hieq
        rw [List.getElem_append_right (le_refl _)]
        simp [hoff]
    · rw [List.map_append]
      refine List.nodup_append.mpr ⟨hnd, List.nodup_singleton _, ?_⟩
      intro a ha hb
      simp only [List.map_cons, List.map_nil, List.mem_singleton] at hb
      subst hb
      rw [lookupByName_eq_none_iff] at hl
      simp only [List.mem_map] at ha
      obtain ⟨p, hp, hpa⟩ := ha
      exact hl p hp hpa

lemma regGood_runAddStages (names : List String) (r : StageRegistry) (hr : RegGood r) :
    RegGood (runAddStages names r) := by
  induction names generalizing r with
  | nil => exact hr
  | cons n rest ih =>
    exact ih (r.addStage n) (regGood_addStage r hr n)

lemma jsShl1_eq_pow (k : Nat) (hk : k < 31) : jsShl1 k = 2 ^ k := by
  unfold jsShl1 wrap32
  rw [Nat.mod_eq_of_lt (by omega)]
  have h2 : (0 : Int) ≤ 2 ^ k + 2 ^ 31 := by positivity
  have hlt : (2 : Int) ^ k < 2 ^ 31 := by
    exact pow_lt_pow_right₀ one_lt_two hk
  have h3 : (2 : Int) ^ k + 2 ^ 31 < 2 ^ 32 := by
    have : (2 : Int) ^ 32 = 2 ^ 31 + 2 ^ 31 := by norm_num
    omega
  rw [Int.emod_eq_of_lt h2 h3]
  ring

lemma int_two_pow_inj {i j : Nat} (h : (2 : Int) ^ i = (2 : Int) ^ j) : i = j := by
  have h2 : ((2 ^ i : Nat) : Int) = ((2 ^ j : Nat) : Int) := by push_cast; exact h
  exact Nat.pow_right_injective (le_refl 2) (Int.ofNat_inj.mp h2)

lemma lookupByName_mem {α : Type} {l : List (String × α)} {name : String} {v : α}
    (h : lookupByName l name = some v) : (name, v) ∈ l := by
  unfold lookupByName at h
  cases hf : l.find? (fun p => p.1 == name) with
  | none => rw [hf] at h; simp at h
  | some p =>
    rw [hf] at h
    simp at h
    have hpred := List.find?_some hf
    have hmem := List.mem_of_find?_eq_some hf
    have : p.1 = name := by simpa using hpred
    have : p = (name, v) := by
      cases p
      simp_all
    rw [this] at hmem
    exact hmem

lemma regGood_lookup_index (r : StageRegistry) (hr : RegGood r) {name : String} {v : Int}
    (h : lookupByName r.name2stageID name = some v) :
    ∃ i, ∃ hi : i < r.name2stageID.length, r.name2stageID[i] = (name, v) ∧ v = jsShl1 i := by
  obtain ⟨hoff, hval, hnd⟩ := hr
  have hmem := lookupByName_mem h
  obtain ⟨i, hi, hget⟩ := List.mem_iff_getElem.mp hmem
  refine ⟨i, hi, hget, ?_⟩
  have := hval i hi
  rw [hget] at this
  exact this

/-- C4: after any sequence of `addStage` calls that leaves fewer than
32 names in the registry (the table holds exactly one entry per
distinct registered name), `stageID` of every registered name is a
single-bit value `2 ^ k` with `k < 32`, and two distinct registered
names never receive the same bitmask. -/
theorem addStage_single_bit_and_collision_free (names : List String)
    (hlt : (runAddStages names initRegistry).name2stageID.length < 32) :
    (∀ name,
      lookupByName (runAddStages names initRegistry).name2stageID name ≠ none →
      ∃ k, k < 32 ∧ (runAddStages names initRegistry).stageID name = 2 ^ k)
    ∧ (∀ n₁ n₂,
      lookupByName (runAddStages names initRegistry).name2stageID n₁ ≠ none →
      lookupByName (runAddStages names initRegistry).name2stageID n₂ ≠ none →
      n₁ ≠ n₂ →
      (runAddStages names initRegistry).stageID n₁ ≠
        (runAddStages names initRegistry).stageID n₂) := by
  have hg : RegGood (runAddStages names initRegistry) :=
    regGood_runAddStages names initRegistry regGood_init
  constructor
  · intro name hne
    cases hl : lookupByName (runAddStages names initRegistry).name2stageID name with
    | none => exact absurd hl hne
    | some v =>
      obtain ⟨i, hi, _, hv⟩ := regGood_lookup_index _ hg hl
      refine ⟨i, by omega, ?_⟩
      unfold StageRegistry.stageID
      rw [hl, hv, jsShl1_eq_pow i (by omega)]
  · intro n₁ n₂ h₁ h₂ hne heq
    cases hl₁ : lookupByName (runAddStages names initRegistry).name2stageID n₁ with
    | none => exact absurd hl₁ h₁
    | some v₁ =>
      cases hl₂ : lookupByName (runAddStages names initRegistry).name2stageID n₂ with
      | none => exact absurd hl₂ h₂
      | some v₂ =>
        have hv : v₁ = v₂ := by
          unfold StageRegistry.stageID at heq
          rw [hl₁, hl₂] at heq
          exact heq
        obtain ⟨i, hi, hgi, hvi⟩ := regGood_lookup_index _ hg hl₁
        obtain ⟨j, hj, hgj, hvj⟩ := regGood_lookup_index _ hg hl₂
        have hij : i = j := by
          apply int_two_pow_inj
        -- both bitmasks are plain powers of two below the ceiling
          rw [← jsShl1_eq_pow i (by omega), ← jsShl1_eq_pow j (by omega), ← hvi, ← hvj, hv]
        subst hij
        rw [hgi] at hgj
        exact hne (congrArg Prod.fst hgj)

/-- Witness for C4 at the concrete call sequence ["a", "b"]. -/
theorem addStage_single_bit_witness :
    (∃ k, k < 32 ∧ (runAddStages ["a", "b"] initRegistry).stageID "a" = 2 ^ k)
    ∧ (runAddStages ["a", "b"] initRegistry).stageID "a" ≠
        (runAddStages ["a", "b"] initRegistry).stageID "b" :=
  ⟨(addStage_single_bit_and_collision_free ["a", "b"] (by decide)).1 "a" (by decide),
   (addStage_single_bit_and_collision_free ["a", "b"] (by decide)).2 "a" "b"
     (by decide) (by decide) (by decide)⟩

/-- C7: `addStage` on an already-registered name is a no-op — the whole
registry state (name table, hence the name's bitmask, and the offset
counter) is unchanged. -/
theorem addStage_idempotent (r : StageRegistry) (name : String)
    (h : lookupByName r.name2stageID name ≠ none) :
    r.addStage name = r := by
  unfold StageRegistry.addStage
  cases hl : lookupByName r.name2stageID name with
  | some v => rfl
  | none => exact absurd hl h

/-- Witness for C7: re-adding "a" right after adding it changes
nothing. -/
theorem addStage_idempotent_witness :
    (initRegistry.addStage "a").addStage "a" = initRegistry.addStage "a" :=
  addStage_idempotent (initRegistry.addStage "a") "a" (by decide)

/-- C1 counterexample: each of the three stub conversions returns true
(success) at a concrete input, not the failure the claim states — the
`assert(false)` is debug-only and the functions fall through to
`return true`. -/
theorem stub_conversions_return_true_counterexample :
    (seval_to_TTFConfig SeVal.undefined ⟨"", 0⟩).1 = true
    ∧ (seval_to_b2Vec2 SeVal.undefined ⟨0, 0⟩).1 = true
    ∧ (seval_to_b2AABB SeVal.undefined ⟨⟨0, 0⟩, ⟨0, 0⟩⟩).1 = true :=
  ⟨rfl, rfl, rfl⟩

/-- C1 amended: for every scripting input, each of the three stub
conversions is unconditionally unimplemented — it performs no
conversion and leaves the output untouched — but it reports success
(returns true); the only failure signal is a debug-build assertion. -/
theorem stub_conversions_unimplemented_return_success (v : SeVal)
    (t : TTFConfig) (w : b2Vec2) (a : b2AABB) :
    seval_to_TTFConfig v t = (true, t)
    ∧ seval_to_b2Vec2 v w = (true, w)
    ∧ seval_to_b2AABB v a = (true, a) :=
  ⟨rfl, rfl, rfl⟩

/-- C8: `isOcclusionQueryEnabled()` is true exactly when the enable
flag is set and the device capability flag reports support, and false
as soon as either is false. -/
theorem isOcclusionQueryEnabled_spec (p : RenderPipeline) :
    (p.isOcclusionQueryEnabled = true ↔
      p.occlusionQueryEnabled = true ∧ p.device.capabilities.supportQuery = true)
    ∧ (p.isOcclusionQueryEnabled = false ↔
      p.occlusionQueryEnabled = false ∨ p.device.capabilities.supportQuery = false) := by
  obtain ⟨e, ⟨⟨q⟩⟩⟩ := p
  cases e <;> cases q <;> simp [RenderPipeline.isOcclusionQueryEnabled]

/-- C9: a scripting value that is none of object, string, number or
boolean (null or undefined) makes `seval_to_ccvalue` return success
with the output tagged value left exactly as it was. -/
theorem seval_to_ccvalue_unsupported_kind (v : SeVal) (ret : CCValue)
    (hobj : v.isObject = false) (hstr : v.isString = false)
    (hnum : v.isNumber = false) (hbool : v.isBoolean = false) :
    seval_to_ccvalue v ret = (true, ret) := by
  cases v <;>
    simp_all [SeVal.isObject, SeVal.isString, SeVal.isNumber, SeVal.isBoolean,
      seval_to_ccvalue]

/-- Witness for C9 at `null` with a string sitting in the output. -/
theorem seval_to_ccvalue_unsupported_kind_witness :
    seval_to_ccvalue SeVal.nullVal (CCValue.str "keep") = (true, CCValue.str "keep") :=
  seval_to_ccvalue_unsupported_kind SeVal.nullVal (CCValue.str "keep") rfl rfl rfl rfl

/-- C5: converting `{x:1, y:2}` yields (1,2) with success, and any
object whose `y` property is absent, or whose `x` or `y` property holds
a non-number, converts to the zero vector with failure. -/
theorem seval_to_Vec2_spec :
    (∀ pt : Vec2, seval_to_Vec2 [("x", .number 1), ("y", .number 2)] pt = (true, ⟨1, 2⟩))
    ∧ (∀ (props : List (String × SeVal)) (pt : Vec2),
      (getProp props "y" = none
        ∨ (∃ w, getProp props "x" = some w ∧ w.isNumber = false)
        ∨ (∃ w, getProp props "y" = some w ∧ w.isNumber = false)) →
      seval_to_Vec2 props pt = (false, Vec2.ZERO)) := by
  constructor
  · intro pt
    rfl
  · intro props pt hbad
    unfold seval_to_Vec2
    cases hx : readNumberProp props "x" with
    | none => rfl
    | some x =>
      have hy : readNumberProp props "y" = none := by
        unfold readNumberProp at hx ⊢
        rcases hbad with hy0 | ⟨w, hw, hwn⟩ | ⟨w, hw, hwn⟩
        · rw [hy0]
        · rw [hw] at hx
          cases w <;> simp_all [SeVal.isNumber]
        · rw [hw]
          cases w <;> simp_all [SeVal.isNumber]
      rw [hy]

/-- Witness for C5: `{x:1}` (missing y) fails with the zero vector. -/
theorem seval_to_Vec2_spec_witness :
    seval_to_Vec2 [("x", SeVal.number 1)] ⟨3, 4⟩ = (false, Vec2.ZERO) :=
  seval_to_Vec2_spec.2 [("x", SeVal.number 1)] ⟨3, 4⟩ (Or.inl rfl)

/-- C3: converting an empty object yields fontName "Arial", fontSize
32, LEFT/TOP alignment, white fill, shadow and stroke disabled;
converting `{fontName:"", shadowEnabled:true}` treats the empty name as
absent (yields "Arial") and fills the shadow sub-fields with their
secondary defaults: offset (5,5), blur 1, opacity 1.  Both hold for
every prior content of the out-parameter. -/
theorem seval_to_FontDefinition_defaults (ret : FontDefinition) :
    ((seval_to_FontDefinition (.object []) ret).1 = true
      ∧ (seval_to_FontDefinition (.object []) ret).2.fontName = "Arial"
      ∧ (seval_to_FontDefinition (.object []) ret).2.fontSize = 32
      ∧ (seval_to_FontDefinition (.object []) ret).2.alignment = TextHAlignmentLEFT
      ∧ (seval_to_FontDefinition (.object []) ret).2.vertAlignment = TextVAlignmentTOP
      ∧ (seval_to_FontDefinition (.object []) ret).2.fontFillColor = Color3B.WHITE
      ∧ (seval_to_FontDefinition (.object []) ret).2.shadow.shadowEnabled = false
      ∧ (seval_to_FontDefinition (.object []) ret).2.stroke.strokeEnabled = false)
    ∧ ((seval_to_FontDefinition
          (.object [("fontName", .str ""), ("shadowEnabled", .boolean true)]) ret).1 = true
      ∧ (seval_to_FontDefinition
          (.object [("fontName", .str ""), ("shadowEnabled", .boolean true)]) ret).2.fontName
          = "Arial"
      ∧ (seval_to_FontDefinition
          (.object [("fontName", .str ""), ("shadowEnabled", .boolean true)]) ret).2.shadow
          = ⟨true, ⟨5, 5⟩, 1, 1⟩) :=
  ⟨⟨rfl, rfl, rfl, rfl, rfl, rfl, rfl, rfl⟩, ⟨rfl, rfl, rfl⟩⟩

/-- C10: the empty-string key passes `isNumberString` vacuously, parses
to integer 0 via `atoi`, and its (convertible) value lands in the
result map under key 0 instead of being skipped. -/
theorem ccvaluemapintkey_empty_key (v : SeVal) (cv : CCValue)
    (h : seval_to_ccvalue v CCValue.nullV = (true, cv)) :
    isNumberString "" = true
    ∧ atoiDigits "" = 0
    ∧ seval_to_ccvaluemapintkey (.object [("", v)]) [] = (true, [(0, cv)]) := by
  refine ⟨rfl, rfl, ?_⟩
  simp [seval_to_ccvaluemapintkey, SeVal.isNullOrUndefined, SeVal.toObjectProps,
    ccvalueMapIntKeyLoop, isNumberString, atoiDigits, h, emplace]

/-- Witness for C10: `{"": "x"}` converts to the map `{0 ↦ "x"}`. -/
theorem ccvaluemapintkey_empty_key_witness :
    seval_to_ccvaluemapintkey (.object [("", .str "x")]) [] = (true, [(0, .str "x")]) :=
  (ccvaluemapintkey_empty_key (.str "x") (.str "x") (by simp [seval_to_ccvalue])).2.2

lemma mat4ReadElems_map (l : List ℚ) :
    mat4ReadElems (l.map SeVal.number) = some l := by
  induction l with
  | nil => rfl
  | cons q rest ih => simp [mat4ReadElems, ih]

/-- C6: a 16-entry matrix serialises to the 16-element numeric array
and deserialising that array restores exactly the same 16 values in
order; both directions succeed. -/
theorem Mat4_roundtrip (l : List ℚ) (mat0 : Mat4) (h : l.length = 16) :
    Mat4_to_seval ⟨l⟩ = (true, .array (l.map SeVal.number))
    ∧ seval_to_Mat4 (Mat4_to_seval ⟨l⟩).2 mat0 = (true, ⟨l⟩) := by
  refine ⟨rfl, ?_⟩
  simp [Mat4_to_seval, seval_to_Mat4, h, mat4ReadElems_map]

/-- Witness for C6: round trip of the matrix filled with 0..15. -/
theorem Mat4_roundtrip_witness :
    seval_to_Mat4
      (Mat4_to_seval ⟨[0, 1, 2, 3, 4, 5, 6, 7, 8, 9, 10, 11, 12, 13, 14, 15]⟩).2
      Mat4.IDENTITY
      = (true, ⟨[0, 1, 2, 3, 4, 5, 6, 7, 8, 9, 10, 11, 12, 13, 14, 15]⟩) :=
  (Mat4_roundtrip [0, 1, 2, 3, 4, 5, 6, 7, 8, 9, 10, 11, 12, 13, 14, 15]
    Mat4.IDENTITY (by rfl)).2


/-- C2: `resize` always stores the logical size; when the new width or
height exceeds the recorded native size it sets the native size to the
new values, resizes the depth-stencil texture and every present color
texture, and — when the pooled framebuffer exists and at least one
texture was resized — rebuilds the framebuffer against the same render
pass and the resized texture list; otherwise native size, textures and
framebuffer are all left unchanged. -/
theorem RenderWindow_resize_spec (win : RenderWindow) (w h : ℚ) :
    ((win.resize w h).width = w ∧ (win.resize w h).height = h)
    ∧ ((w > win.nativeWidth ∨ h > win.nativeHeight) →
      (win.resize w h).nativeWidth = w
      ∧ (win.resize w h).nativeHeight = h
      ∧ (win.resize w h).depthStencilTexture
          = win.depthStencilTexture.map (fun t => t.resize w h)
      ∧ (win.resize w h).colorTextures
          = win.colorTextures.map (fun c => c.map (fun t => t.resize w h))
      ∧ ((win.framebuffer.isSome = true
            ∧ (win.depthStencilTexture.isSome = true
              ∨ win.colorTextures.any (fun c => c.isSome) = true)) →
          (win.resize w h).framebuffer
            = some ⟨win.renderPass,
                win.colorTextures.map (fun c => c.map (fun t => t.resize w h)),
                win.depthStencilTexture.map (fun t => t.resize w h)⟩))
    ∧ (¬(w > win.nativeWidth ∨ h > win.nativeHeight) →
      (win.resize w h).nativeWidth = win.nativeWidth
      ∧ (win.resize w h).nativeHeight = win.nativeHeight
      ∧ (win.resize w h).depthStencilTexture = win.depthStencilTexture
      ∧ (win.resize w h).colorTextures = win.colorTextures
      ∧ (win.resize w h).framebuffer = win.framebuffer) := by
  refine ⟨?_, ?_, ?_⟩
  · unfold RenderWindow.resize
    by_cases hc : w > win.nativeWidth ∨ h > win.nativeHeight
    · simp only [hc, if_pos]
      constructor <;> split <;> rfl
    · rw [if_neg hc]
      exact ⟨rfl, rfl⟩
  · intro hc
    unfold RenderWindow.resize
    rw [if_pos hc]
    dsimp only
    refine ⟨?_, ?_, ?_, ?_, ?_⟩
    · split <;> rfl
    · split <;> rfl
    · split <;> rfl
    · split <;> rfl
    · rintro ⟨hfb, hsome⟩
      split
      · rfl
      · rename_i hmatch
        exfalso
        cases hfbv : win.framebuffer with
        | none => rw [hfbv] at hfb; simp at hfb
        | some fb =>
          have hneed : (win.depthStencilTexture.isSome
              || win.colorTextures.any (fun c => c.isSome)) = true := by
            rcases hsome with h1 | h1 <;> simp [h1]
          exact hmatch fb (by rw [hfbv]) hneed
  · intro hc
    unfold RenderWindow.resize
    rw [if_neg hc]
    exact ⟨rfl, rfl, rfl, rfl, rfl⟩

/-- Witness for C2: an 800×600 window with one offscreen color texture
and a depth texture, resized to 1600×1200 — the exceeding branch fires
and the native size rises to 1600×1200. -/
theorem RenderWindow_resize_spec_witness :
    (RenderWindow.resize
      { width := 800, height := 600, nativeWidth := 800, nativeHeight := 600
        renderPass := some ⟨7⟩
        colorTextures := [some ⟨800, 600⟩, none]
        depthStencilTexture := some ⟨800, 600⟩
        framebuffer := some ⟨some ⟨7⟩, [some ⟨800, 600⟩, none], some ⟨800, 600⟩⟩ }
      1600 1200).nativeWidth = 1600
    ∧ (RenderWindow.resize
      { width := 800, height := 600, nativeWidth := 800, nativeHeight := 600
        renderPass := some ⟨7⟩
        colorTextures := [some ⟨800, 600⟩, none]
        depthStencilTexture := some ⟨800, 600⟩
        framebuffer := some ⟨some ⟨7⟩, [some ⟨800, 600⟩, none], some ⟨800, 600⟩⟩ }
      1600 1200).nativeHeight = 1200 := by
  have hs := (RenderWindow_resize_spec
    { width := 800, height := 600, nativeWidth := 800, nativeHeight := 600
      renderPass := some ⟨7⟩
      colorTextures := [some ⟨800, 600⟩, none]
      depthStencilTexture := some ⟨800, 600⟩
      framebuffer := some ⟨some ⟨7⟩, [some ⟨800, 600⟩, none], some ⟨800, 600⟩⟩ }
    1600 1200).2.1 (by norm_num)
  exact ⟨hs.1, hs.2.1⟩
